import Mathlib

/-!
Verification of the traffic-accidents batch pipeline
(`manage_csv.py`, `csv_to_json.py`, `data/fix_encoding.py`).

The Python sources are shallowly embedded: dataframes become lists of
records, numeric coercion of coordinate strings becomes an explicit
decimal parser over `ℚ`, the external `pyproj` transformer is a function
parameter `ℚ → ℚ → ℚ × ℚ` (an `Option` of one, `none` standing for the
caught exception path), and fallible steps return `Option`.
-/

namespace TrafficAccidents

/-! ### Numeric coercion

Models `pd.to_numeric(..., errors='coerce')` after `astype(str).str.strip()`
and `float(...)` on plain decimal literals: optional sign, digits with at
most one decimal point, surrounding whitespace stripped; anything else
(empty, whitespace-only, or non-numeric text) coerces to missing. -/

def isSpaceChar (c : Char) : Bool :=
  c = ' ' || c = '\t' || c = '\n' || c = '\r'

def stripChars (cs : List Char) : List Char :=
  ((cs.dropWhile isSpaceChar).reverse.dropWhile isSpaceChar).reverse

def digitsVal (cs : List Char) : ℕ :=
  cs.foldl (fun a c => a * 10 + (c.toNat - 48)) 0

def allDigits (cs : List Char) : Bool :=
  cs.all Char.isDigit

def parseUnsigned (cs : List Char) : Option ℚ :=
  let ip := cs.takeWhile (fun c => c ≠ '.')
  let rest := cs.dropWhile (fun c => c ≠ '.')
  match rest with
  | [] => if cs ≠ [] ∧ allDigits cs then some ((digitsVal cs : ℚ)) else none
  | _ :: fp =>
      if (ip ≠ [] ∨ fp ≠ []) ∧ allDigits ip ∧ allDigits fp then
        some (mkRat (digitsVal ip * 10 ^ fp.length + digitsVal fp) (10 ^ fp.length))
      else none

def parseNumChars (cs : List Char) : Option ℚ :=
  match cs with
  | '-' :: rest => (parseUnsigned rest).map (fun q => -q)
  | '+' :: rest => parseUnsigned rest
  | _ => parseUnsigned cs

def parseNum (s : String) : Option ℚ :=
  parseNumChars (stripChars s.toList)

/-- Models Python `int(...)` on a string: optional sign and digits only,
surrounding whitespace allowed. -/
def parseIntChars (cs : List Char) : Option ℤ :=
  match cs with
  | '-' :: rest => if rest ≠ [] ∧ allDigits rest then some (-(digitsVal rest : ℤ)) else none
  | '+' :: rest => if rest ≠ [] ∧ allDigits rest then some ((digitsVal rest : ℤ)) else none
  | _ => if cs ≠ [] ∧ allDigits cs then some ((digitsVal cs : ℤ)) else none

def parseIntStr (s : String) : Option ℤ :=
  parseIntChars (stripChars s.toList)

/-! ### Coordinate transformation (`convert_coordinates_batch`) -/

/-- The external `pyproj` D96/TM → WGS84 transformer with `always_xy=True`:
first argument is the easting operand, second the northing operand, and the
result pair is `(longitude, latitude)`, matching
`lons, lats = transformer.transform(..., ...)` in the source. -/
abbrev Transform : Type := ℚ → ℚ → ℚ × ℚ

/-- Shallow embedding of `convert_coordinates_batch` (manage_csv.py).
Input is the batch of raw `(GeoKoordinataX, GeoKoordinataY)` string pairs;
output is, at each original row position, `some (longitude, latitude)` or
`none` (the NaN the source leaves in the initialized columns).
`t = none` models the caught exception path of the `try` block: the
latitude/longitude columns keep their initialized missing values.
Per the source, a pair is transformed exactly when both components coerce
to numbers and neither is zero, and the call is
`transformer.transform(valid_y, valid_x)`: the Y value is the easting
operand and the X value the northing operand. -/
def convert_coordinates_batch (t : Option Transform) (coords : List (String × String)) :
    List (Option (ℚ × ℚ)) :=
  match t with
  | none => coords.map (fun _ => none)
  | some tr =>
      coords.map (fun p =>
        match parseNum p.1, parseNum p.2 with
        | some xv, some yv => if xv ≠ 0 ∧ yv ≠ 0 then some (tr yv xv) else none
        | some _, none => none
        | none, some _ => none
        | none, none => none)

/-! ### Year extraction and year filtering -/

def yearOfDigits (a b c d : Char) : ℕ :=
  (a.toNat - 48) * 1000 + (b.toNat - 48) * 100 + (c.toNat - 48) * 10 + (d.toNat - 48)

/-- Scanner for `re.search(r'pn(\d4)', filename)`: find the first position
where `pn` is followed by four digits, advancing one character at a time. -/
def findYear : List Char → Option ℕ
  | [] => none
  | c :: rest =>
      match c, rest with
      | 'p', 'n' :: a :: b :: cc :: d :: _ =>
          if a.isDigit ∧ b.isDigit ∧ cc.isDigit ∧ d.isDigit then some (yearOfDigits a b cc d)
          else findYear rest
      | _, _ => findYear rest

/-- Embedding of `get_year_from_filename` (manage_csv.py). -/
def get_year_from_filename (s : String) : Option ℤ :=
  (findYear s.toList).map (fun n => (n : ℤ))

/-- The module-level year-selection constants of manage_csv.py
(`START_YEAR`, `END_YEAR`, `SPECIFIC_YEARS`). -/
structure YearConfig where
  startYear : Option ℤ
  endYear : Option ℤ
  specificYears : List ℤ

def belowStart (o : Option ℤ) (year : ℤ) : Bool :=
  match o with
  | none => false
  | some s => year < s

def aboveEnd (o : Option ℤ) (year : ℤ) : Bool :=
  match o with
  | none => false
  | some e => e < year

/-- The three skip checks at the top of `process_file` (manage_csv.py):
`if SPECIFIC_YEARS and year not in SPECIFIC_YEARS`, then
`if START_YEAR is not None and year < START_YEAR`, then
`if END_YEAR is not None and year > END_YEAR`; each hit returns `None`. -/
def yearAllowed (cfg : YearConfig) (year : ℤ) : Bool :=
  if cfg.specificYears.isEmpty = false ∧ cfg.specificYears.contains year = false then false
  else if belowStart cfg.startYear year then false
  else if aboveEnd cfg.endYear year then false
  else true

/-! ### Per-file processing (`process_file`) and merging (`merge_all_files`) -/

/-- A raw CSV row as loaded by `pd.read_csv`: the record id column
`ZaporednaStevilkaPN`, the two coordinate columns as raw strings, and the
remaining descriptive columns kept opaque. -/
structure RawRow where
  pnId : String
  x : String
  y : String
  data : String
deriving DecidableEq

/-- A row of a processed (and of the merged) dataframe: the `year` column
added by `process_file`, the record id, the `latitude`/`longitude` columns
(`none` = NaN), and the opaque descriptive columns. -/
structure OutRow where
  year : ℤ
  pnId : String
  latitude : Option ℚ
  longitude : Option ℚ
  data : String
deriving DecidableEq

/-- The `(year, ZaporednaStevilkaPN)` composite key used by
`drop_duplicates(subset=['year', 'ZaporednaStevilkaPN'])`. -/
def rowKey (r : OutRow) : ℤ × String :=
  (r.year, r.pnId)

/-- The Slovenia bounding-box test of manage_csv.py:
`(latitude < 45) | (latitude > 47) | (longitude < 13) | (longitude > 16)`.
Comparisons against a missing value are false, as for NaN in pandas. -/
def outOfBoundsRow (r : OutRow) : Bool :=
  match r.latitude, r.longitude with
  | some la, some lo => la < 45 || la > 47 || lo < 13 || lo > 16
  | some _, none => false
  | none, some _ => false
  | none, none => false

/-- The warning side channel of `process_file`: `len(invalid)`, the number
of rows outside the Slovenia bounds. It is printed, never used to change
the dataframe. -/
def boundsWarningCount (rows : List OutRow) : ℕ :=
  (rows.filter outOfBoundsRow).length

/-- Shallow embedding of `process_file` (manage_csv.py).

`decoded` is the result of the encoding-fallback read loop (`none`: no
candidate encoding succeeded, the function logs and returns `None`);
`hasCoordCols` says whether both `GeoKoordinataX` and `GeoKoordinataY`
columns are present; `t` is the `pyproj` transformer, `none` modelling the
exception path inside `convert_coordinates_batch`.

The source skips the file when the year-configuration checks fail, adds
the `year` column, and — only when the coordinate columns exist — converts
coordinates and then drops every row whose latitude or longitude is
missing (`df.dropna(subset=['latitude', 'longitude'])`); the Slovenia
bounds check afterwards only computes a warning count. Files without
coordinate columns are returned whole, with no latitude/longitude. -/
def process_file (cfg : YearConfig) (year : ℤ) (decoded : Option (List RawRow))
    (hasCoordCols : Bool) (t : Option Transform) : Option (List OutRow) :=
  if yearAllowed cfg year = false then none
  else
    match decoded with
    | none => none
    | some rows =>
        if hasCoordCols then
          let converted := convert_coordinates_batch t (rows.map (fun r => (r.x, r.y)))
          let kept := (rows.zip converted).filterMap (fun rc =>
            match rc.2 with
            | some lonlat => some ⟨year, rc.1.pnId, some lonlat.2, some lonlat.1, rc.1.data⟩
            | none => none)
          let _warnCount := boundsWarningCount kept
          some kept
        else
          some (rows.map (fun r => ⟨year, r.pnId, none, none, r.data⟩))

/-- One candidate file of the sorted `glob` result of `merge_all_files`:
its name (the year is extracted from it), the outcome of the
encoding-fallback read, whether it has coordinate columns, and the
transformer behaviour for it. -/
structure FileInput where
  filename : String
  decoded : Option (List RawRow)
  hasCoordCols : Bool
  transform : Option Transform

/-- The accumulation loop of `merge_all_files`: files whose year cannot be
extracted are skipped with a diagnostic, the rest go through
`process_file`, and only non-`None` results are collected into `dfs`. -/
def processedDfs (cfg : YearConfig) (files : List FileInput) : List (List OutRow) :=
  files.filterMap (fun fi =>
    match get_year_from_filename fi.filename with
    | none => none
    | some y => process_file cfg y fi.decoded fi.hasCoordCols fi.transform)

/-- Worker for `dropDuplicatesKey`: `seen` is the set of composite keys
already encountered; a row is kept exactly when its key is fresh. -/
def dropDupGo (seen : List (ℤ × String)) : List OutRow → List OutRow
  | [] => []
  | r :: rs =>
      if rowKey r ∈ seen then dropDupGo seen rs
      else r :: dropDupGo (rowKey r :: seen) rs

/-- `pandas.DataFrame.drop_duplicates(subset=['year', 'ZaporednaStevilkaPN'])`
with the default `keep='first'`: keep each row whose composite key has not
appeared earlier. -/
def dropDuplicatesKey (l : List OutRow) : List OutRow :=
  dropDupGo [] l

/-- Shallow embedding of `merge_all_files` (manage_csv.py). `none` models
`return False` with no output written; `some rows` models `return True`
after writing `rows` to the output file. The source returns `False` when
the data folder is missing, when the glob finds no `pn*.csv` file, and
when no file is processed successfully; otherwise it concatenates the
processed dataframes in file order (`ignore_index=True`), drops duplicate
`(year, ZaporednaStevilkaPN)` keys keeping the first occurrence, and
writes the result. -/
def merge_all_files (cfg : YearConfig) (folderExists : Bool) (files : List FileInput) :
    Option (List OutRow) :=
  if folderExists = false then none
  else if files.isEmpty then none
  else
    let dfs := processedDfs cfg files
    if dfs.isEmpty then none
    else some (dropDuplicatesKey dfs.flatten)

/-! ### JSON export (`csv_to_json.py`) -/

/-- A row of the merged CSV as seen by `csv.DictReader` in
`convert_csv_to_compressed_json`: every accessed field via
`row.get(field, '')`, so an absent column reads as the empty string. -/
structure CsvRow where
  latitude : String
  longitude : String
  year : String
  KlasifikacijaNesrece : String
  TipNesrece : String
  VremenskeOkoliscine : String
  StanjePrometa : String
  StanjeVozisca : String
  VNaselju : String
  TekstCesteNaselja : String
  DatumPN : String
  UraPN : String
deriving DecidableEq

/-- One object appended to the exported JSON array. -/
structure JsonObj where
  latitude : ℚ
  longitude : ℚ
  year : ℤ
  KlasifikacijaNesrece : String
  TipNesrece : String
  VremenskeOkoliscine : String
  StanjePrometa : String
  StanjeVozisca : String
  VNaselju : String
  TekstCesteNaselja : String
  DatumPN : String
  UraPN : String
deriving DecidableEq

/-- Python `round(x, 6)` modelled over `ℚ`: round to six decimal digits,
i.e. the floor of `q * 10^6 + 1/2` scaled back (the tie behaviour of
Python's float rounding is immaterial to the properties proved here). -/
def round6 (q : ℚ) : ℚ :=
  mkRat (Int.fdiv (2 * q.num * 1000000 + q.den) (2 * q.den)) 1000000

/-- The body of the row loop of `convert_csv_to_compressed_json`
(csv_to_json.py): `float` the latitude and longitude, `int` the year — a
failure of any of the three raises `ValueError` and the row is skipped —
then append an object only `if lat and lon`, i.e. only when both parsed
coordinates are non-zero (Python truthiness of floats). -/
def exportRow (r : CsvRow) : Option JsonObj :=
  match parseNum r.latitude, parseNum r.longitude, parseIntStr r.year with
  | some lat, some lon, some y =>
      if lat ≠ 0 ∧ lon ≠ 0 then
        some ⟨round6 lat, round6 lon, y,
          r.KlasifikacijaNesrece, r.TipNesrece, r.VremenskeOkoliscine,
          r.StanjePrometa, r.StanjeVozisca, r.VNaselju,
          r.TekstCesteNaselja, r.DatumPN, r.UraPN⟩
      else none
  | _, _, _ => none

/-- Shallow embedding of `convert_csv_to_compressed_json` (csv_to_json.py):
the JSON array that is serialized and gzip-compressed. Serialization and
compression are faithful external collaborators, so decompressing and
parsing the export yields exactly this list. -/
def convert_csv_to_compressed_json (rows : List CsvRow) : List JsonObj :=
  rows.filterMap exportRow

/-! ### Encoding fallback (`fix_encoding.py` vs the loader in `manage_csv.py`) -/

inductive Encoding where
  | utf8
  | iso8859_2
  | windows1250
  | cp1250
deriving DecidableEq

/-- The fallback order of the read loop in `process_file` (manage_csv.py):
`['utf-8', 'iso-8859-2', 'windows-1250', 'cp1250']`. -/
def loaderEncodings : List Encoding :=
  [Encoding.utf8, Encoding.iso8859_2, Encoding.windows1250, Encoding.cp1250]

/-- The fallback order of `fix_encoding_simple` (data/fix_encoding.py):
`['utf-8', 'windows-1250', 'iso-8859-2', 'cp1250']`. -/
def fixEncodings : List Encoding :=
  [Encoding.utf8, Encoding.windows1250, Encoding.iso8859_2, Encoding.cp1250]

/-- The shared try-in-order pattern of both loops: attempt each candidate
encoding on the raw bytes, return the first that decodes together with its
decoded text, `none` if every candidate fails. -/
def firstSuccess (decode : Encoding → List ℕ → Option String) :
    List Encoding → List ℕ → Option (Encoding × String)
  | [], _ => none
  | e :: es, bs =>
      match decode e bs with
      | some t => some (e, t)
      | none => firstSuccess decode es bs

/-- Modelled from the spec: the candidate text codecs are external
collaborators (the Python standard codecs); this records their behaviour
on the single byte 0xA5, which is an invalid lone UTF-8 continuation byte,
decodes to U+013D in ISO-8859-2, and decodes to U+0104 in Windows-1250 and
its alias cp1250. -/
def decodeByteA5 (e : Encoding) : Option Char :=
  match e with
  | Encoding.utf8 => none
  | Encoding.iso8859_2 => some 'Ľ'
  | Encoding.windows1250 => some 'Ą'
  | Encoding.cp1250 => some 'Ą'

/-- The codec model above lifted to the byte sequence `[0xA5]`. -/
def decodeA5 (e : Encoding) (bs : List ℕ) : Option String :=
  match bs with
  | [165] => (decodeByteA5 e).map (fun c => String.mk [c])
  | _ => none

/-! ### Helper lemmas -/

theorem find?_eq_head?_filterP {α : Type} (p : α → Bool) (l : List α) :
    l.find? p = (l.filter p).head? := by
  induction l with
  | nil => rfl
  | cons a as ih =>
      by_cases h : p a
      · simp [List.find?_cons, List.filter_cons, h]
      · rw [List.find?_cons_of_neg _ h, List.filter_cons_of_neg h, ih]

theorem dropDupGo_filter (l : List OutRow) :
    ∀ (seen : List (ℤ × String)) (k : ℤ × String),
      (dropDupGo seen l).filter (fun r => rowKey r = k) =
        if k ∈ seen then [] else (l.filter (fun r => rowKey r = k)).take 1 := by
  induction l with
  | nil => intro seen k; by_cases h : k ∈ seen <;> simp [dropDupGo, h]
  | cons r rs ih =>
      intro seen k
      by_cases hseen : rowKey r ∈ seen
      · rw [dropDupGo, if_pos hseen, ih seen k]
        by_cases hk : k ∈ seen
        · simp [hk]
        · have hrk : ¬ rowKey r = k := fun h => hk (h ▸ hseen)
          simp [hk, List.filter_cons, hrk]
      · rw [dropDupGo, if_neg hseen]
        by_cases hk : rowKey r = k
        · have hks : ¬ k ∈ seen := fun h => hseen (hk ▸ h)
          rw [List.filter_cons_of_pos (by simpa using hk), ih (rowKey r :: seen) k,
            if_pos (by simp [hk]), List.filter_cons_of_pos (by simpa using hk)]
          simp [hks]
        · rw [List.filter_cons_of_neg (by simpa using hk), ih (rowKey r :: seen) k,
            List.filter_cons_of_neg (by simpa using hk)]
          by_cases hks : k ∈ seen
          · simp [hks, hk]
          · simp [hks, fun h => hk (by simpa using h), List.mem_cons]
            intro h
            exact absurd h.symm hk

theorem dropDuplicatesKey_filter (l : List OutRow) (k : ℤ × String) :
    (dropDuplicatesKey l).filter (fun r => rowKey r = k) =
      (l.filter (fun r => rowKey r = k)).take 1 := by
  rw [dropDuplicatesKey, dropDupGo_filter l [] k, if_neg (List.not_mem_nil k)]

theorem mem_dropDuplicatesKey (l : List OutRow) (r : OutRow) :
    r ∈ dropDuplicatesKey l ↔ l.find? (fun s => rowKey s = rowKey r) = some r := by
  have h1 : r ∈ dropDuplicatesKey l ↔
      r ∈ (dropDuplicatesKey l).filter (fun s => rowKey s = rowKey r) := by
    simp [List.mem_filter]
  rw [h1, dropDuplicatesKey_filter l (rowKey r), find?_eq_head?_filterP]
  cases (l.filter (fun s => rowKey s = rowKey r)) with
  | nil => simp
  | cons a as => simp [List.take, eq_comm]

theorem merge_some_eq (cfg : YearConfig) (fe : Bool) (files : List FileInput)
    (m : List OutRow) (h : merge_all_files cfg fe files = some m) :
    m = dropDuplicatesKey (processedDfs cfg files).flatten := by
  unfold merge_all_files at h
  split at h
  · exact absurd h (by simp)
  · split at h
    · exact absurd h (by simp)
    · dsimp only [] at h
      split at h
      · exact absurd h (by simp)
      · exact (Option.some_injective _ h).symm

/-! ### Claim theorems -/

/-- C1: for every sequence of per-year datasets consumed by the merger, a
`(year, ZaporednaStevilkaPN)` composite key occurring two or more times in
the concatenation (per-file row order, files in the given glob order)
appears exactly once in the merged output, namely as its first occurrence;
a key occurring exactly once is kept unchanged. -/
theorem merge_dedup_first_occurrence (cfg : YearConfig) (fe : Bool) (files : List FileInput)
    (m : List OutRow) (k : ℤ × String)
    (hm : merge_all_files cfg fe files = some m) :
    (2 ≤ (((processedDfs cfg files).flatten.filter (fun r => rowKey r = k)).length) →
      m.filter (fun r => rowKey r = k) =
        ((processedDfs cfg files).flatten.filter (fun r => rowKey r = k)).take 1 ∧
      (m.filter (fun r => rowKey r = k)).length = 1) ∧
    ((((processedDfs cfg files).flatten.filter (fun r => rowKey r = k)).length) = 1 →
      m.filter (fun r => rowKey r = k) =
        (processedDfs cfg files).flatten.filter (fun r => rowKey r = k)) := by
  have hme := merge_some_eq cfg fe files m hm
  subst hme
  rw [dropDuplicatesKey_filter]
  constructor
  · intro h2
    refine ⟨rfl, ?_⟩
    rw [List.length_take]
    exact Nat.min_eq_left (Nat.le_trans (by norm_num) h2)
  · intro h1
    rcases List.length_eq_one.mp h1 with ⟨a, ha⟩
    rw [ha]
    rfl

/-- Witness for C1: two files for years 2020 and 2021 both carrying record
id 5, the 2020 file carrying it twice; the merged output keeps exactly the
first 2020 occurrence for the key `(2020, 5)`. -/
theorem merge_dedup_first_occurrence_witness :
    ([⟨2020, "5", none, none, "a"⟩, ⟨2021, "5", none, none, "c"⟩] : List OutRow).filter
        (fun r => rowKey r = ((2020 : ℤ), "5")) = [⟨2020, "5", none, none, "a"⟩] := by
  have h := (merge_dedup_first_occurrence ⟨none, none, []⟩ true
    [⟨"pn2020.csv", some [⟨"5", "", "", "a"⟩, ⟨"5", "", "", "b"⟩], false, none⟩,
     ⟨"pn2021.csv", some [⟨"5", "", "", "c"⟩], false, none⟩]
    [⟨2020, "5", none, none, "a"⟩, ⟨2021, "5", none, none, "c"⟩]
    ((2020 : ℤ), "5") (by decide)).1 (by decide)
  rw [h.1]
  decide

/-- C3 (code bug): with `SPECIFIC_YEARS = [2010]`, `START_YEAR = 2015` and
`END_YEAR = 2020`, the code processes no year at all — in particular not
2010 — because all three year checks are applied conjunctively, while the
configuration comments of manage_csv.py ("Process specific years only,
leave empty to use START_YEAR/END_YEAR") and the startup summary promise
that a non-empty explicit year set takes precedence over the range. -/
theorem year_filter_specific_conflicts_with_range :
    yearAllowed ⟨some 2015, some 2020, [2010]⟩ 2010 = false ∧
    ∀ y : ℤ, yearAllowed ⟨some 2015, some 2020, [2010]⟩ y = false := by
  refine ⟨by decide, fun y => ?_⟩
  by_cases hy : y = 2010
  · subst hy; decide
  · simp [yearAllowed]
    intro h
    exact absurd h hy

/-- C5: the merge operation returns overall failure (no output written)
when the data folder is missing, when there are no candidate files, and
when no candidate file is processed successfully. -/
theorem merge_zero_success_failure (cfg : YearConfig) (fe : Bool) (files : List FileInput)
    (h : fe = false ∨ files = [] ∨ processedDfs cfg files = []) :
    merge_all_files cfg fe files = none := by
  rcases h with h | h | h
  · simp [merge_all_files, h]
  · subst h
    cases fe <;> simp [merge_all_files]
  · cases fe <;> simp [merge_all_files, h]

/-- Witness for C5: a directory whose single candidate file cannot be
decoded by any encoding yields an overall failure. -/
theorem merge_zero_success_failure_witness :
    merge_all_files ⟨none, none, []⟩ true [⟨"pn2020.csv", none, true, none⟩] = none :=
  merge_zero_success_failure ⟨none, none, []⟩ true [⟨"pn2020.csv", none, true, none⟩]
    (Or.inr (Or.inr (by decide)))

/-- C2: in a batch conversion, a pair whose components include a value
that fails numeric coercion (in particular any string that is empty after
stripping) or that equals exactly zero yields missing latitude/longitude
at its row position, while every other pair receives a non-missing result
at its original row position; the output batch has the input's length. -/
theorem convert_batch_validity_filter (t : Transform) (coords : List (String × String))
    (i : ℕ) (x y : String) (hi : coords[i]? = some (x, y)) :
    (convert_coordinates_batch (some t) coords).length = coords.length ∧
    (∀ s : String, stripChars s.toList = [] → parseNum s = none) ∧
    ((parseNum x = none ∨ parseNum y = none ∨ parseNum x = some 0 ∨ parseNum y = some 0) →
      (convert_coordinates_batch (some t) coords)[i]? = some none) ∧
    (∀ xv yv : ℚ, parseNum x = some xv → parseNum y = some yv → xv ≠ 0 → yv ≠ 0 →
      ∃ lon lat : ℚ, (convert_coordinates_batch (some t) coords)[i]? = some (some (lon, lat))) := by
  refine ⟨by simp [convert_coordinates_batch], ?_, ?_, ?_⟩
  · intro s hs
    rw [parseNum, hs]
    rfl
  · intro h
    rw [convert_coordinates_batch, List.getElem?_map, hi]
    rcases h with h | h | h | h
    · cases hpy : parseNum y <;> simp [h, hpy]
    · cases hpx : parseNum x <;> simp [h, hpx]
    · cases hpy : parseNum y <;> simp [h, hpy]
    · cases hpx : parseNum x <;> simp [h, hpx]
  · intro xv yv hx hy hx0 hy0
    refine ⟨(t yv xv).1, (t yv xv).2, ?_⟩
    rw [convert_coordinates_batch, List.getElem?_map, hi]
    simp [hx, hy, hx0, hy0]

/-- Witness for C2: with a concrete transformer, a pair with a zero X
component is excluded (missing output), a pair with a non-numeric Y
component is excluded, and a fully valid pair is transformed. -/
theorem convert_batch_validity_filter_witness :
    (convert_coordinates_batch (some (fun a b => (a + b, a - b)))
        [("0", "5"), ("2", "xx"), ("2", "3")])[0]? = some none ∧
    (convert_coordinates_batch (some (fun a b => (a + b, a - b)))
        [("0", "5"), ("2", "xx"), ("2", "3")])[1]? = some none ∧
    ∃ lon lat : ℚ, (convert_coordinates_batch (some (fun a b => (a + b, a - b)))
        [("0", "5"), ("2", "xx"), ("2", "3")])[2]? = some (some (lon, lat)) := by
  refine ⟨?_, ?_, ?_⟩
  · exact (convert_batch_validity_filter (fun a b => (a + b, a - b)) _ 0 "0" "5"
      rfl).2.2.1 (Or.inr (Or.inr (Or.inl (by decide))))
  · exact (convert_batch_validity_filter (fun a b => (a + b, a - b)) _ 1 "2" "xx"
      rfl).2.2.1 (Or.inr (Or.inl (by decide)))
  · exact (convert_batch_validity_filter (fun a b => (a + b, a - b)) _ 2 "2" "3"
      rfl).2.2.2 2 3 (by decide) (by decide) (by decide) (by decide)

/-- C6: for every valid pair, the batch transform passes the source Y
value as the first (easting) operand and the X value as the second
(northing) operand of the external transformer — `t yv xv`, not `t xv yv`
— mirroring `transformer.transform(valid_y, valid_x)` in the source. -/
theorem transform_operand_order_swapped (t : Transform) (coords : List (String × String))
    (i : ℕ) (x y : String) (xv yv : ℚ) (hi : coords[i]? = some (x, y))
    (hx : parseNum x = some xv) (hy : parseNum y = some yv)
    (hx0 : xv ≠ 0) (hy0 : yv ≠ 0) :
    (convert_coordinates_batch (some t) coords)[i]? = some (some (t yv xv)) := by
  rw [convert_coordinates_batch, List.getElem?_map, hi]
  simp [hx, hy, hx0, hy0]

/-- Witness for C6: an asymmetric transformer applied to the pair
`(X, Y) = (2, 3)` produces `t 3 2 = (3 + 3 + 2, 3 - 2)`, showing the Y
value feeds the first operand. -/
theorem transform_operand_order_swapped_witness :
    (convert_coordinates_batch (some (fun a b => (a + a + b, a - b)))
        [("2", "3")])[0]? = some (some ((8 : ℚ), (1 : ℚ))) := by
  have h := transform_operand_order_swapped (fun a b => (a + a + b, a - b))
    [("2", "3")] 0 "2" "3" 2 3 rfl (by decide) (by decide) (by decide) (by decide)
  norm_num at h
  exact h

/-- C4 counterexample: a file that has coordinate columns and whose batch
transformation raises is not skipped — `process_file` still returns a
dataframe — but that dataframe is empty: the caller's
`dropna(subset=['latitude', 'longitude'])` removes every row, so none of
the file's rows can reach the merged dataset, contrary to the claim. -/
theorem transform_error_no_rows_cex :
    process_file ⟨none, none, []⟩ 2020 (some [⟨"1", "450000", "62000", "d"⟩]) true none =
      some [] ∧
    convert_coordinates_batch none [("450000", "62000")] = [none] ∧
    merge_all_files ⟨none, none, []⟩ true
      [⟨"pn2020.csv", some [⟨"1", "450000", "62000", "d"⟩], true, none⟩] = some [] := by
  refine ⟨by decide, by decide, by decide⟩

/-- C4 (amended): when the transformation raises on a file with coordinate
columns, the error is caught at file granularity — the file still counts
as successfully processed and is returned rather than discarded — and its
latitude/longitude stay unset for every row; but precisely because of
that, the caller drops all of its rows, so the file contributes an empty
dataset to the merge. -/
theorem transform_error_file_kept_but_empty (cfg : YearConfig) (year : ℤ)
    (rows : List RawRow) (h : yearAllowed cfg year = true) :
    convert_coordinates_batch none (rows.map (fun r => (r.x, r.y))) =
      List.replicate rows.length none ∧
    process_file cfg year (some rows) true none = some [] := by
  constructor
  · rw [convert_coordinates_batch]
    rw [List.map_map]
    exact List.map_const' rows none
  · have hkept : (rows.zip (convert_coordinates_batch none
        (rows.map (fun r => (r.x, r.y))))).filterMap
        (fun rc : RawRow × Option (ℚ × ℚ) =>
          match rc.2 with
          | some lonlat =>
              some (⟨year, rc.1.pnId, some lonlat.2, some lonlat.1, rc.1.data⟩ : OutRow)
          | none => none) = [] := by
      rw [convert_coordinates_batch, List.map_map]
      induction rows with
      | nil => rfl
      | cons r rs ih => simpa using ih
    rw [process_file, if_neg (by simp [h])]
    dsimp only
    rw [hkept]
    rfl

/-- Witness for C4 (amended): a concrete one-row file with valid
coordinates, processed under a failing transformer. -/
theorem transform_error_file_kept_but_empty_witness :
    process_file ⟨none, none, []⟩ 2020 (some [⟨"1", "450000", "62000", "d"⟩]) true none =
      some [] :=
  (transform_error_file_kept_but_empty ⟨none, none, []⟩ 2020
    [⟨"1", "450000", "62000", "d"⟩] (by decide)).2

/-- C7: the Slovenia bounding-box check only produces a warning count; a
row whose coordinates fall outside the box is retained unchanged, and
whether any row of the concatenated datasets reaches the merged output is
characterised purely by first-occurrence of its composite key — the
out-of-bounds flag of the row plays no role. -/
theorem bounds_check_warning_only (cfg : YearConfig) (fe : Bool) (files : List FileInput)
    (m : List OutRow) (r : OutRow)
    (hm : merge_all_files cfg fe files = some m)
    (hob : outOfBoundsRow r = true)
    (hmem : r ∈ (processedDfs cfg files).flatten) :
    (r ∈ m ↔
      (processedDfs cfg files).flatten.find? (fun s => rowKey s = rowKey r) = some r) := by
  rw [merge_some_eq cfg fe files m hm]
  exact mem_dropDuplicatesKey _ r

/-- Witness for C7: a one-file run whose transformer produces latitude 2
and longitude 3 — far outside the Slovenia box — still carries the row
into the merged output. -/
theorem bounds_check_warning_only_witness :
    (⟨2020, "7", some 2, some 3, "d"⟩ : OutRow) ∈
      [(⟨2020, "7", some 2, some 3, "d"⟩ : OutRow)] := by
  have h := bounds_check_warning_only ⟨none, none, []⟩ true
    [⟨"pn2020.csv", some [⟨"7", "2", "3", "d"⟩], true, some (fun a b => (a, b))⟩]
    [⟨2020, "7", some 2, some 3, "d"⟩] ⟨2020, "7", some 2, some 3, "d"⟩
    (by decide) (by decide) (by decide)
  exact h.mpr (by decide)

/-- C8: a merged-CSV row contributes an object to the JSON export exactly
when its latitude and longitude fields parse to valid (non-zero, per the
pipeline's validity notion) numbers and its year parses as an integer; the
emitted object carries the coordinates rounded to six decimal digits, the
parsed year and the fixed descriptive fields verbatim, so the list of
`(year, latitude, longitude)` triples recovered by decompressing and
parsing the export is exactly the rounded triple list of the valid rows. -/
theorem export_valid_rows_roundtrip (rows : List CsvRow) :
    ((convert_csv_to_compressed_json rows).map (fun o => (o.year, o.latitude, o.longitude)) =
      rows.filterMap (fun r =>
        match parseNum r.latitude, parseNum r.longitude, parseIntStr r.year with
        | some lat, some lon, some y =>
            if lat ≠ 0 ∧ lon ≠ 0 then some (y, round6 lat, round6 lon) else none
        | _, _, _ => none)) ∧
    (∀ r : CsvRow, (exportRow r).isSome ↔
      (∃ lat lon : ℚ, ∃ y : ℤ, parseNum r.latitude = some lat ∧
        parseNum r.longitude = some lon ∧ parseIntStr r.year = some y ∧
        lat ≠ 0 ∧ lon ≠ 0)) ∧
    (∀ (r : CsvRow) (lat lon : ℚ) (y : ℤ), parseNum r.latitude = some lat →
      parseNum r.longitude = some lon → parseIntStr r.year = some y →
      lat ≠ 0 → lon ≠ 0 →
      exportRow r = some ⟨round6 lat, round6 lon, y,
        r.KlasifikacijaNesrece, r.TipNesrece, r.VremenskeOkoliscine,
        r.StanjePrometa, r.StanjeVozisca, r.VNaselju,
        r.TekstCesteNaselja, r.DatumPN, r.UraPN⟩) := by
  refine ⟨?_, ?_, ?_⟩
  · rw [convert_csv_to_compressed_json, List.map_filterMap]
    apply List.filterMap_congr
    intro r _
    rw [exportRow]
    cases parseNum r.latitude <;> cases parseNum r.longitude <;>
      cases parseIntStr r.year <;> try rfl
    rename_i lat lon y
    dsimp only
    by_cases h0 : lat ≠ 0 ∧ lon ≠ 0
    · rw [if_pos h0, if_pos h0]
      rfl
    · rw [if_neg h0, if_neg h0]
      rfl
  · intro r
    rw [exportRow]
    constructor
    · intro hs
      cases hlat : parseNum r.latitude <;> rw [hlat] at hs
      · simp at hs
      cases hlon : parseNum r.longitude <;> rw [hlon] at hs
      · simp at hs
      cases hy : parseIntStr r.year <;> rw [hy] at hs
      · simp at hs
      rename_i lat lon y
      by_cases h0 : lat ≠ 0 ∧ lon ≠ 0
      · exact ⟨lat, lon, y, rfl, rfl, rfl, h0.1, h0.2⟩
      · dsimp only at hs
        rw [if_neg h0] at hs
        simp at hs
    · rintro ⟨lat, lon, y, hlat, hlon, hy, hl0, ho0⟩
      rw [hlat, hlon, hy]
      dsimp only
      rw [if_pos ⟨hl0, ho0⟩]
      rfl
  · intro r lat lon y hlat hlon hy hl0 ho0
    rw [exportRow, hlat, hlon, hy]
    dsimp only
    rw [if_pos ⟨hl0, ho0⟩]

/-- Witness for C8: a concrete row with latitude 46.5, longitude 14 and
year 2020 is exported with rounded coordinates and verbatim descriptive
fields. -/
theorem export_valid_rows_roundtrip_witness :
    exportRow ⟨"46.5", "14", "2020", "k", "t", "v", "s", "sv", "vn", "tc", "d", "u"⟩ =
      some ⟨round6 (mkRat 93 2), round6 14, 2020,
        "k", "t", "v", "s", "sv", "vn", "tc", "d", "u"⟩ :=
  (export_valid_rows_roundtrip []).2.2
    ⟨"46.5", "14", "2020", "k", "t", "v", "s", "sv", "vn", "tc", "d", "u"⟩
    (mkRat 93 2) 14 2020 (by decide) (by decide) (by decide) (by decide) (by decide)

/-- C9 counterexample: the two components do not use the same ordered
fallback list. On the single byte 0xA5 — invalid UTF-8 but decodable by
both middle candidates — the encoding fixer (which tries Windows-1250
before ISO-8859-2) selects Windows-1250 and decodes to "Ą", while the
year-file loader (which tries ISO-8859-2 first) selects ISO-8859-2 and
decodes to "Ľ": different encoding, different text. -/
theorem encoding_fallback_divergence_cex :
    firstSuccess decodeA5 fixEncodings [165] = some (Encoding.windows1250, "Ą") ∧
    firstSuccess decodeA5 loaderEncodings [165] = some (Encoding.iso8859_2, "Ľ") ∧
    firstSuccess decodeA5 fixEncodings [165] ≠ firstSuccess decodeA5 loaderEncodings [165] := by
  refine ⟨by decide, by decide, by decide⟩

/-- C9 (amended): the two components use the same set of four candidate
encodings, both trying UTF-8 first, but in different fallback order; for
every decode behaviour and input, whenever UTF-8 decoding succeeds both
components select UTF-8 with the same decoded text (they can differ only
on inputs that fail UTF-8 and decode under more than one fallback). -/
theorem encoding_fallback_same_set_utf8_first :
    fixEncodings.Perm loaderEncodings ∧
    (∀ (decode : Encoding → List ℕ → Option String) (bs : List ℕ) (t : String),
      decode Encoding.utf8 bs = some t →
      firstSuccess decode fixEncodings bs = some (Encoding.utf8, t) ∧
      firstSuccess decode loaderEncodings bs = some (Encoding.utf8, t)) := by
  refine ⟨by decide, fun decode bs t h => ?_⟩
  rw [fixEncodings, loaderEncodings]
  constructor <;> · rw [firstSuccess, h]

/-- Witness for C9 (amended): a decode behaviour under which UTF-8
succeeds makes both components pick UTF-8 with the same text. -/
theorem encoding_fallback_same_set_utf8_first_witness :
    firstSuccess (fun _ _ => some "ok") fixEncodings [] = some (Encoding.utf8, "ok") ∧
    firstSuccess (fun _ _ => some "ok") loaderEncodings [] = some (Encoding.utf8, "ok") :=
  encoding_fallback_same_set_utf8_first.2 (fun _ _ => some "ok") [] "ok" rfl

/-- C10: a merged-CSV row whose latitude or longitude parses to exactly
zero is silently excluded from the JSON export even though zero parses
successfully — the inclusion test is truthiness of the parsed floats, not
parse success. -/
theorem export_excludes_zero_coordinates (r : CsvRow) (pre post : List CsvRow)
    (h : parseNum r.latitude = some 0 ∨ parseNum r.longitude = some 0) :
    exportRow r = none ∧
    convert_csv_to_compressed_json (pre ++ r :: post) =
      convert_csv_to_compressed_json (pre ++ post) := by
  have hnone : exportRow r = none := by
    rw [exportRow]
    rcases h with h | h
    · rw [h]
      cases parseNum r.longitude <;> cases parseIntStr r.year <;> simp
    · rw [h]
      cases parseNum r.latitude <;> cases parseIntStr r.year <;> simp
  refine ⟨hnone, ?_⟩
  rw [convert_csv_to_compressed_json, convert_csv_to_compressed_json,
    List.filterMap_append, List.filterMap_append, List.filterMap_cons, hnone]

/-- Witness for C10: the row with latitude "0.0" (which parses to the
float 0.0) and otherwise valid fields is dropped from the export. -/
theorem export_excludes_zero_coordinates_witness :
    exportRow ⟨"0.0", "14.5", "2020", "k", "t", "v", "s", "sv", "vn", "tc", "d", "u"⟩ =
      none :=
  (export_excludes_zero_coordinates
    ⟨"0.0", "14.5", "2020", "k", "t", "v", "s", "sv", "vn", "tc", "d", "u"⟩ [] []
    (Or.inl (by decide))).1

end TrafficAccidents
